import Mathlib

/-!
Shallow embedding of the background session dispatcher of the chatGPTBox
browser extension (`src/background/index.mjs`), together with proofs of the
specification's claims about it.

The single source file under scrutiny is the background script: a credential
cache (`getAccessToken`), a session channel handler (the `port.onMessage`
listener with its four backend-family branches and its catch block), and the
context-menu relay (`refreshMenu`).  Pure data (responses, sessions,
configuration) is embedded as Lean structures; the handler's side effects
(channel envelopes, backend calls, credential fetches) are reified as an
explicit effect list, and the process-wide credential cache is threaded as
explicit state.
-/

/-- Whether `pat` occurs as a contiguous run inside the second list. -/
def containsSub (pat : List Char) : List Char → Bool
  | [] => pat.isEmpty
  | c :: rest => pat.isPrefixOf (c :: rest) || containsSub pat rest

/-- JavaScript `String.prototype.includes`: substring test. -/
def strIncludes (s sub : String) : Bool :=
  containsSub sub.toList s.toList

/-- Modelled from the spec: the `expiry-map` dependency used for the
credential cache (its source is not part of this repository).  Per the spec,
`get()` returns the cached value if present and unexpired, with an expiry
window of 10 seconds from the store: "A cache entry is never returned more
than 10 seconds after it was stored; a request 10s+1ms later triggers a
refetch."  We model a single-key map as an optional `(storedAt, value)` pair;
an entry stored at time `t` is visible at time `now` exactly when
`now ≤ t + maxAge` (times in milliseconds). -/
structure ExpiryMap where
  maxAge : Nat
  entry : Option (Nat × String)
deriving DecidableEq, Repr

def ExpiryMap.get (m : ExpiryMap) (now : Nat) : Option String :=
  match m.entry with
  | some (t, v) => if now ≤ t + m.maxAge then some v else none
  | none => none

def ExpiryMap.set (m : ExpiryMap) (now : Nat) (v : String) : ExpiryMap :=
  { m with entry := some (now, v) }

def ExpiryMap.delete (m : ExpiryMap) : ExpiryMap :=
  { m with entry := none }

/-- `const cache = new ExpiryMap(10 * 1000)` -/
def initialCache : ExpiryMap := ⟨10 * 1000, none⟩

/-- JavaScript truthiness of a possibly-absent string value
(`undefined` and `''` are falsy). -/
def otruthy : Option String → Bool
  | none => false
  | some s => !s.isEmpty

/-- The two failure modes `getAccessToken` can throw:
`new Error('UNAUTHORIZED')` and `new Error('CLOUDFLARE')`. -/
inductive AuthError where
  | unauthorized
  | cloudflare
deriving DecidableEq, Repr

def errMessage : AuthError → String
  | .unauthorized => "UNAUTHORIZED"
  | .cloudflare => "CLOUDFLARE"

/-- The response of `fetch('https://chat.openai.com/api/auth/session')` as
`getAccessToken` observes it: an HTTP status, and the result of
`resp.json()` — `none` when the body is not parseable JSON (the `.catch`
turns this into `{}`), `some tok?` when it parses, with `tok?` the optional
`accessToken` field (which may be present but empty). -/
structure SessionResp where
  status : Nat
  json : Option (Option String)
deriving DecidableEq, Repr

/-- The execution environment branch of `getAccessToken`:
`isSafari()` true (Environment A — credential read from persisted user
configuration) or false (Environment B — ambient cookie session, network
fetch against the upstream session endpoint). -/
inductive Env where
  | safari (configAccessToken : Option String)
  | web (resp : SessionResp)
deriving DecidableEq, Repr

/-- Outcome of one `getAccessToken()` call: the returned value or thrown
error, the cache afterwards, and whether a fetch (network request or config
read) occurred on this call. -/
structure TokenResult where
  result : Except AuthError (Option String)
  cache : ExpiryMap
  fetched : Bool
deriving Repr

/-- `getAccessToken` from `src/background/index.mjs` (lines 27-50), as a pure
function of the cache state, the current time and the environment:

```
if (cache.get(KEY)) return cache.get(KEY)
if (isSafari()) {
  const userConfig = await getUserConfig()
  if (userConfig.accessToken) cache.set(KEY, userConfig.accessToken)
  else throw new Error('UNAUTHORIZED')
} else {
  const resp = await fetch(...)
  if (resp.status === 403) throw new Error('CLOUDFLARE')
  const data = await resp.json().catch(() => (\x7b\x7d))
  if (!data.accessToken) throw new Error('UNAUTHORIZED')
  cache.set(KEY, data.accessToken)
}
return cache.get(KEY)
```
-/
def getAccessToken (cache : ExpiryMap) (now : Nat) (env : Env) : TokenResult :=
  if otruthy (cache.get now) then
    ⟨.ok (cache.get now), cache, false⟩
  else
    match env with
    | .safari tok? =>
      if otruthy tok? then
        let c := cache.set now (tok?.getD "")
        ⟨.ok (c.get now), c, true⟩
      else
        ⟨.error .unauthorized, cache, true⟩
    | .web resp =>
      if resp.status = 403 then
        ⟨.error .cloudflare, cache, true⟩
      else
        let data : Option String := resp.json.getD none
        if otruthy data then
          let c := cache.set now (data.getD "")
          ⟨.ok (c.get now), c, true⟩
        else
          ⟨.error .unauthorized, cache, true⟩

/-- Modelled from the spec: the `uuid` dependency's `v4` generator, used by
the dispatcher to mint "a fresh unique value" per identifier.  Embedded as a
deterministic supply indexed by a seed that the dispatcher advances after
each draw; distinct seeds yield distinct identifiers. -/
def uuidGen (seed : Nat) : String :=
  String.mk ('u' :: List.replicate seed 'x')

/-- The `Session` payload of a request envelope
(`\x7b session: \x7b messageId?, parentMessageId?, question, ... \x7d \x7d`).
`conversationRest` stands for the backend-specific continuation state the
dispatcher carries opaquely. -/
structure Session where
  messageId : Option String
  parentMessageId : Option String
  question : String
  conversationRest : String
deriving DecidableEq, Repr

/-- The slice of the resolved user configuration the dispatcher reads:
`modelName`, `apiKey`, and (Environment A only) `accessToken`. -/
structure UserConfig where
  modelName : String
  apiKey : String
  accessToken : Option String
deriving DecidableEq, Repr

/-- Modelled from the spec: `chatgptWebModelKeys` from the configuration
module `src/config/index.mjs`, which is outside the provided source.  The
spec fixes only that the four membership lists are fixed configuration data
and disjoint; representative keys are used. -/
def chatgptWebModelKeys : List String :=
  ["chatgptFree35", "chatgptFree35Mobile"]

/-- Modelled from the spec: `gptApiModelKeys` from the configuration module
(see `chatgptWebModelKeys`). -/
def gptApiModelKeys : List String :=
  ["gptApiDavinci"]

/-- Modelled from the spec: `chatgptApiModelKeys` from the configuration
module (see `chatgptWebModelKeys`). -/
def chatgptApiModelKeys : List String :=
  ["chatgptApi35"]

/-- Modelled from the spec: `customApiModelKeys` from the configuration
module (see `chatgptWebModelKeys`). -/
def customApiModelKeys : List String :=
  ["customModel"]

/-- Observable actions of one `port.onMessage` handler run: the
configuration read, credential-cache interaction, the backend generation
calls (with the arguments they receive), and error envelopes posted on the
channel. -/
inductive Effect where
  | readConfig
  | credentialGet
  | credentialFetch
  | callWeb (question : String) (session : Session) (accessToken : Option String)
  | callGptCompletion (question : String) (session : Session)
      (apiKey : String) (modelName : String)
  | callChatgptApi (question : String) (session : Session)
      (apiKey : String) (modelName : String)
  | callCustomApi (question : String) (session : Session)
      (apiKey : String) (modelName : String)
  | postError (message : String)
deriving DecidableEq, Repr

/-- The catch block of the `port.onMessage` listener (lines 93-99):

```
catch (err) \x7b
  console.error(err)
  if (!err.message.includes('aborted')) \x7b
    port.postMessage(\x7b error: err.message \x7d)
    cache.delete(KEY_ACCESS_TOKEN)
  \x7d
\x7d
```

Returns the envelopes posted and the cache afterwards. -/
def catchBlock (m : String) (cache : ExpiryMap) : List Effect × ExpiryMap :=
  if strIncludes m "aborted" then
    ([], cache)
  else
    ([.postError m], cache.delete)

/-- Result of one `port.onMessage` handler run: the effects in order, the
cache afterwards, the (possibly mutated) session, and the uuid supply
afterwards. -/
structure DispatchResult where
  effects : List Effect
  cache : ExpiryMap
  session : Option Session
  uuidSeed : Nat
deriving Repr

/-- Shared tail of the three token-based branches (lines 68-91): invoke the
family's generation capability with `config.apiKey` and `config.modelName`,
then run the catch block if the call throws (`backendFail = some m` means the
backend call rejected with an error whose message is `m`). -/
def tokenFamilyBranch (mkCall : String → Session → String → String → Effect)
    (session : Session) (config : UserConfig) (cache : ExpiryMap)
    (fx : List Effect) (uuidSeed : Nat) (backendFail : Option String) :
    DispatchResult :=
  let fx2 := fx ++ [mkCall session.question session config.apiKey config.modelName]
  match backendFail with
  | none => ⟨fx2, cache, some session, uuidSeed⟩
  | some m =>
    let handled := catchBlock m cache
    ⟨fx2 ++ handled.1, handled.2, some session, uuidSeed⟩

/-- The `port.onMessage` listener body (lines 54-100), as a pure function of
the envelope's session payload, the resolved configuration, the cache, the
current time, the environment, the uuid supply, and the backend outcome
oracle (`backendFail = some m`: the selected generation call rejects with
message `m`; `none`: it resolves).

```
const session = msg.session
if (!session) return
const config = await getUserConfig()
try \x7b
  if (chatgptWebModelKeys.includes(config.modelName)) \x7b
    const accessToken = await getAccessToken()
    session.messageId = uuidv4()
    if (session.parentMessageId == null) session.parentMessageId = uuidv4()
    await generateAnswersWithChatgptWebApi(port, session.question, session, accessToken)
  \x7d else if (gptApiModelKeys.includes(config.modelName)) \x7b ... \x7d
  else if (chatgptApiModelKeys.includes(config.modelName)) \x7b ... \x7d
  else if (customApiModelKeys.includes(config.modelName)) \x7b ... \x7d
\x7d catch (err) \x7b ... \x7d
```
-/
def handleMessage (msgSession : Option Session) (config : UserConfig)
    (cache : ExpiryMap) (now : Nat) (env : Env) (uuidSeed : Nat)
    (backendFail : Option String) : DispatchResult :=
  match msgSession with
  | none => ⟨[], cache, none, uuidSeed⟩
  | some session =>
    if chatgptWebModelKeys.contains config.modelName then
      let tr := getAccessToken cache now env
      let fx := [Effect.readConfig, Effect.credentialGet]
        ++ (if tr.fetched then [Effect.credentialFetch] else [])
      match tr.result with
      | .error e =>
        let handled := catchBlock (errMessage e) tr.cache
        ⟨fx ++ handled.1, handled.2, some session, uuidSeed⟩
      | .ok tok? =>
        let session1 := { session with messageId := some (uuidGen uuidSeed) }
        let afterParent :=
          if session1.parentMessageId = none then
            ({ session1 with parentMessageId := some (uuidGen (uuidSeed + 1)) },
              uuidSeed + 2)
          else
            (session1, uuidSeed + 1)
        let session2 := afterParent.1
        let seed2 := afterParent.2
        let fx2 := fx ++ [Effect.callWeb session2.question session2 tok?]
        match backendFail with
        | none => ⟨fx2, tr.cache, some session2, seed2⟩
        | some m =>
          let handled := catchBlock m tr.cache
          ⟨fx2 ++ handled.1, handled.2, some session2, seed2⟩
    else if gptApiModelKeys.contains config.modelName then
      tokenFamilyBranch .callGptCompletion session config cache
        [Effect.readConfig] uuidSeed backendFail
    else if chatgptApiModelKeys.contains config.modelName then
      tokenFamilyBranch .callChatgptApi session config cache
        [Effect.readConfig] uuidSeed backendFail
    else if customApiModelKeys.contains config.modelName then
      tokenFamilyBranch .callCustomApi session config cache
        [Effect.readConfig] uuidSeed backendFail
    else
      ⟨[Effect.readConfig], cache, some session, uuidSeed⟩

/-- `const menuId = 'ChatGPTBox-Menu'` -/
def menuId : String := "ChatGPTBox-Menu"

/-- One created context-menu item, with the properties `refreshMenu` passes
to `Browser.contextMenus.create`. -/
structure MenuItem where
  id : String
  parentId : Option String
  title : Option String
  contexts : List String
  itemType : Option String
deriving DecidableEq, Repr

/-- Modelled from the spec: the static tool configuration `menuConfig`
imported from `src/content-script/menu-tools` (outside the provided
source) — key/label pairs, one child menu item each. -/
def menuToolEntries : List (String × String) :=
  [("newChat", "New Chat"), ("openConversationPage", "Open Conversation Page")]

/-- Modelled from the spec: `defaultConfig.selectionTools` from the
configuration module (outside the provided source) — the parallel key
sequence for selection tools. -/
def selectionTools : List String :=
  ["explain", "translate"]

/-- Modelled from the spec: `defaultConfig.selectionToolsDesc` from the
configuration module — the parallel description sequence (equal length,
the i-th key pairs with the i-th description). -/
def selectionToolsDesc : List String :=
  ["Explain", "Translate"]

/-- The menu tree `refreshMenu` creates after `removeAll` (lines 112-142):
the root, one child per tool, a separator, one child per selection tool. -/
def buildMenuItems : List MenuItem :=
  [⟨menuId, none, some "ChatGPTBox", ["all"], none⟩]
    ++ menuToolEntries.map
        (fun kv => ⟨menuId ++ kv.1, some menuId, some kv.2, ["all"], none⟩)
    ++ [⟨menuId ++ "separator1", some menuId, none, ["selection"], some "separator"⟩]
    ++ (selectionTools.zip selectionToolsDesc).map
        (fun kv => ⟨menuId ++ kv.1, some menuId, some kv.2, ["selection"], none⟩)

/-- Observable menu state: the created items, and how many
`contextMenus.onClicked` listeners are registered. -/
structure MenuState where
  items : List MenuItem
  clickListeners : Nat
deriving DecidableEq, Repr

/-- `refreshMenu` (lines 110-156): `removeAll` then recreate the whole tree,
and — inside the same function — register a fresh `onClicked` listener. -/
def refreshMenu (st : MenuState) : MenuState :=
  { items := buildMenuItems, clickListeners := st.clickListeners + 1 }

/-- Remove the first occurrence of `pat` as a contiguous run
(JavaScript `String.prototype.replace` with string pattern and empty
replacement). -/
def dropFirstSub (pat : List Char) : List Char → List Char
  | [] => []
  | c :: rest =>
    if pat.isPrefixOf (c :: rest) then (c :: rest).drop pat.length
    else c :: dropFirstSub pat rest

/-- `info.menuItemId.replace(menuId, '')` -/
def stripMenuId (s : String) : String :=
  String.mk (dropFirstSub menuId.toList s.toList)

/-- The `\x7b itemId, selectionText \x7d` messages sent to the originating
tab when one menu click occurs: every registered listener runs, and each
sends one message (lines 144-154). -/
def clickMessages (st : MenuState) (menuItemId selectionText : String) :
    List (String × String) :=
  List.replicate st.clickListeners (stripMenuId menuItemId, selectionText)

theorem otruthy_none : otruthy none = false := rfl

theorem otruthy_some (s : String) : otruthy (some s) = !s.isEmpty := rfl

theorem uuidGen_inj {a b : Nat} (h : uuidGen a = uuidGen b) : a = b := by
  have hd : ('u' :: List.replicate a 'x') = ('u' :: List.replicate b 'x') :=
    congrArg String.data h
  have hl := congrArg List.length hd
  simpa using hl

/-- C1: for every request handled by the session channel handler that ends
in an exception: if the exception's message contains the cancellation marker
`'aborted'`, no envelope is posted on the channel and the credential cache is
not invalidated; for every other exception, exactly one `{error: message}`
envelope containing the original message text is posted and the credential
cache entry is deleted. -/
theorem claim_C1_catch_swallow_or_report (m : String) (cache : ExpiryMap) :
    (strIncludes m "aborted" = true → catchBlock m cache = ([], cache)) ∧
    (strIncludes m "aborted" = false →
      catchBlock m cache = ([Effect.postError m], cache.delete) ∧
      (catchBlock m cache).2.entry = none) := by
  constructor
  · intro h
    simp [catchBlock, h]
  · intro h
    simp [catchBlock, h, ExpiryMap.delete]

theorem claim_C1_witness :
    catchBlock "The user aborted a request." initialCache = ([], initialCache) ∧
    catchBlock "rate limited" initialCache =
      ([Effect.postError "rate limited"], initialCache.delete) :=
  ⟨(claim_C1_catch_swallow_or_report "The user aborted a request." initialCache).1
      (by decide),
   ((claim_C1_catch_swallow_or_report "rate limited" initialCache).2 (by decide)).1⟩

/-- C2: on a credential-cache miss in Environment B, an HTTP 403 response
makes `getAccessToken` fail with `CLOUDFLARE` (Blocked), never
`UNAUTHORIZED`; and on any failing call the cache is left unchanged (nothing
is stored). -/
theorem claim_C2_cloudflare_and_no_store (cache : ExpiryMap) (now : Nat)
    (resp : SessionResp) (hmiss : otruthy (cache.get now) = false) :
    (resp.status = 403 →
      getAccessToken cache now (.web resp) = ⟨.error .cloudflare, cache, true⟩) ∧
    (∀ e : AuthError, (getAccessToken cache now (.web resp)).result = .error e →
      (getAccessToken cache now (.web resp)).cache = cache) := by
  constructor
  · intro h403
    simp [getAccessToken, hmiss, h403]
  · intro e
    simp only [getAccessToken, hmiss, Bool.false_eq_true, if_false]
    split
    · intro _; rfl
    · split
      · intro h; simp at h
      · intro _; rfl

theorem claim_C2_witness :
    getAccessToken initialCache 0 (.web ⟨403, some (some "tok")⟩) =
      ⟨.error .cloudflare, initialCache, true⟩ :=
  (claim_C2_cloudflare_and_no_store initialCache 0 ⟨403, some (some "tok")⟩ rfl).1 rfl

/-- C10: in Environment B, a response body that is not parseable JSON is
treated exactly like a well-formed response lacking the credential field:
`getAccessToken` fails with `UNAUTHORIZED` (no exception propagates) and the
cache is unchanged. -/
theorem claim_C10_parse_failure_is_unauthorized (cache : ExpiryMap) (now st : Nat)
    (hmiss : otruthy (cache.get now) = false) (hst : st ≠ 403) :
    getAccessToken cache now (.web ⟨st, none⟩) =
      getAccessToken cache now (.web ⟨st, some none⟩) ∧
    getAccessToken cache now (.web ⟨st, none⟩) =
      ⟨.error .unauthorized, cache, true⟩ := by
  constructor <;> simp [getAccessToken, hmiss, hst, otruthy_none]

theorem claim_C10_witness :
    getAccessToken initialCache 0 (.web ⟨200, none⟩) =
      getAccessToken initialCache 0 (.web ⟨200, some none⟩) ∧
    getAccessToken initialCache 0 (.web ⟨200, none⟩) =
      ⟨.error .unauthorized, initialCache, true⟩ :=
  claim_C10_parse_failure_is_unauthorized initialCache 0 200 rfl (by decide)

/-- C3: a cached credential stored at time `t` is returned by every
`getAccessToken` call at `now ≤ t + 10 * 1000` with no fetch (network or
config read) and the cache unchanged, uniformly in the environment; and at
any `now` beyond the 10-second window the entry is no longer visible and the
call performs a fetch. -/
theorem claim_C3_ten_second_window (t : Nat) (v : String) (now : Nat) (env : Env)
    (hv : v.isEmpty = false) :
    (now ≤ t + 10 * 1000 →
      getAccessToken ⟨10 * 1000, some (t, v)⟩ now env =
        ⟨.ok (some v), ⟨10 * 1000, some (t, v)⟩, false⟩) ∧
    (t + 10 * 1000 < now →
      ExpiryMap.get ⟨10 * 1000, some (t, v)⟩ now = none ∧
      (getAccessToken ⟨10 * 1000, some (t, v)⟩ now env).fetched = true) := by
  constructor
  · intro hle
    simp [getAccessToken, ExpiryMap.get, hle, otruthy, hv]
  · intro hlt
    have hget : ExpiryMap.get ⟨10 * 1000, some (t, v)⟩ now = none := by
      simp [ExpiryMap.get]
      omega
    refine ⟨hget, ?_⟩
    have hm : otruthy (ExpiryMap.get ⟨10 * 1000, some (t, v)⟩ now) = false := by
      rw [hget, otruthy_none]
    cases env with
    | safari tok? =>
      simp only [getAccessToken, hm, Bool.false_eq_true, if_false]
      split <;> rfl
    | web resp =>
      simp only [getAccessToken, hm, Bool.false_eq_true, if_false]
      split
      · rfl
      · split <;> rfl

theorem claim_C3_witness :
    getAccessToken ⟨10 * 1000, some (0, "tok")⟩ (10 * 1000) (.web ⟨403, none⟩) =
      ⟨.ok (some "tok"), ⟨10 * 1000, some (0, "tok")⟩, false⟩ ∧
    (ExpiryMap.get ⟨10 * 1000, some (0, "tok")⟩ (10 * 1000 + 1) = none ∧
     (getAccessToken ⟨10 * 1000, some (0, "tok")⟩ (10 * 1000 + 1)
        (.web ⟨403, none⟩)).fetched = true) :=
  ⟨(claim_C3_ten_second_window 0 "tok" (10 * 1000) (.web ⟨403, none⟩) rfl).1
      (by omega),
   (claim_C3_ten_second_window 0 "tok" (10 * 1000 + 1) (.web ⟨403, none⟩) rfl).2
      (by omega)⟩

/-- C9: a message whose envelope has no session payload is silently ignored:
no configuration read, no credential-cache interaction, no backend call, no
envelope posted; cache and uuid supply are untouched. -/
theorem claim_C9_no_session_ignored (config : UserConfig) (cache : ExpiryMap)
    (now : Nat) (env : Env) (seed : Nat) (bf : Option String) :
    handleMessage none config cache now env seed bf = ⟨[], cache, none, seed⟩ :=
  rfl

/-- C4: for a web-session-family request whose credential acquisition
succeeds, the dispatcher assigns `session.messageId` a fresh value from the
identifier supply; a `parentMessageId` the caller left unset is assigned the
next fresh value (distinct from the `messageId` one), while a
`parentMessageId` the caller passed back is reused verbatim; the supply is
advanced past every drawn identifier. -/
theorem claim_C4_web_session_identifiers (s : Session) (config : UserConfig)
    (cache : ExpiryMap) (now : Nat) (env : Env) (seed : Nat) (bf : Option String)
    (hweb : chatgptWebModelKeys.contains config.modelName = true)
    (hok : ∃ tokv, (getAccessToken cache now env).result = .ok tokv) :
    ∃ s2 : Session,
      (handleMessage (some s) config cache now env seed bf).session = some s2 ∧
      s2.messageId = some (uuidGen seed) ∧
      (s.parentMessageId = none →
        s2.parentMessageId = some (uuidGen (seed + 1)) ∧
        uuidGen (seed + 1) ≠ uuidGen seed) ∧
      (∀ p : String, s.parentMessageId = some p → s2.parentMessageId = some p) ∧
      seed < (handleMessage (some s) config cache now env seed bf).uuidSeed := by
  obtain ⟨tokv, hok⟩ := hok
  have hmem : config.modelName ∈ chatgptWebModelKeys := by
    simpa using hweb
  by_cases hp : s.parentMessageId = none
  · refine ⟨{ s with
                messageId := some (uuidGen seed)
                parentMessageId := some (uuidGen (seed + 1)) }, ?_, rfl,
            fun _ => ⟨rfl, fun h => by have := uuidGen_inj h; omega⟩, ?_, ?_⟩
    · cases bf <;> simp [handleMessage, hmem, hok, hp]
    · intro p hps
      rw [hp] at hps
      cases hps
    · cases bf <;> simp [handleMessage, hmem, hok, hp]
  · refine ⟨{ s with messageId := some (uuidGen seed) }, ?_, rfl, ?_, ?_, ?_⟩
    · cases bf <;> simp [handleMessage, hmem, hok, hp]
    · intro h
      exact absurd h hp
    · intro p hps
      simpa using hps
    · cases bf <;> simp [handleMessage, hmem, hok, hp]

theorem claim_C4_witness :
    ∃ s2 : Session,
      (handleMessage (some ⟨none, none, "q", "r"⟩) ⟨"chatgptFree35", "k", none⟩
          initialCache 5 (.web ⟨200, some (some "t")⟩) 0 none).session = some s2 ∧
      s2.messageId = some (uuidGen 0) ∧
      ((⟨none, none, "q", "r"⟩ : Session).parentMessageId = none →
        s2.parentMessageId = some (uuidGen (0 + 1)) ∧
        uuidGen (0 + 1) ≠ uuidGen 0) ∧
      (∀ p : String, (⟨none, none, "q", "r"⟩ : Session).parentMessageId = some p →
        s2.parentMessageId = some p) ∧
      0 < (handleMessage (some ⟨none, none, "q", "r"⟩) ⟨"chatgptFree35", "k", none⟩
          initialCache 5 (.web ⟨200, some (some "t")⟩) 0 none).uuidSeed :=
  claim_C4_web_session_identifiers ⟨none, none, "q", "r"⟩ ⟨"chatgptFree35", "k", none⟩
    initialCache 5 (.web ⟨200, some (some "t")⟩) 0 none (by decide) ⟨some "t", rfl⟩

/-- C5 counterexample: a caller-set `messageId` is NOT left unchanged.  On a
web-session-family request whose session arrives with
`messageId = "caller-mid"`, the dispatcher overwrites it with a freshly
generated identifier before the backend call. -/
theorem claim_C5_counterexample :
    (handleMessage (some ⟨some "caller-mid", some "caller-pid", "q", "r"⟩)
        ⟨"chatgptFree35", "k", none⟩ initialCache 5 (.web ⟨200, some (some "t")⟩)
        0 none).session =
      some ⟨some (uuidGen 0), some "caller-pid", "q", "r"⟩ ∧
    some (uuidGen 0) ≠ some "caller-mid" := by
  constructor
  · rfl
  · decide

/-- C5 amended: the dispatcher mutates the caller-supplied Session only in
the web-session branch, and there it touches only the two identifier fields:
`question` and the opaque continuation state are always preserved, a
caller-set `parentMessageId` is reused verbatim, and outside the web-session
family the session is returned exactly as it arrived.  (`messageId`,
however, is regenerated on every web-session turn even when the caller set
it.) -/
theorem claim_C5_amended_frame (s : Session) (config : UserConfig)
    (cache : ExpiryMap) (now : Nat) (env : Env) (seed : Nat) (bf : Option String) :
    ∃ s2 : Session,
      (handleMessage (some s) config cache now env seed bf).session = some s2 ∧
      s2.question = s.question ∧
      s2.conversationRest = s.conversationRest ∧
      (∀ p : String, s.parentMessageId = some p → s2.parentMessageId = some p) ∧
      (config.modelName ∉ chatgptWebModelKeys → s2 = s) := by
  by_cases hmem : config.modelName ∈ chatgptWebModelKeys
  · cases hr : (getAccessToken cache now env).result with
    | error e =>
      refine ⟨s, ?_, rfl, rfl, fun p hp => hp, fun _ => rfl⟩
      simp [handleMessage, hmem, hr]
    | ok tokv =>
      by_cases hp : s.parentMessageId = none
      · refine ⟨{ s with
                    messageId := some (uuidGen seed)
                    parentMessageId := some (uuidGen (seed + 1)) },
                ?_, rfl, rfl, ?_, ?_⟩
        · cases bf <;> simp [handleMessage, hmem, hr, hp]
        · intro p hps
          rw [hp] at hps
          cases hps
        · intro hno
          exact absurd hmem hno
      · refine ⟨{ s with messageId := some (uuidGen seed) }, ?_, rfl, rfl, ?_, ?_⟩
        · cases bf <;> simp [handleMessage, hmem, hr, hp]
        · intro p hps
          simpa using hps
        · intro hno
          exact absurd hmem hno
  · refine ⟨s, ?_, rfl, rfl, fun p hp => hp, fun _ => rfl⟩
    cases bf <;>
      simp only [handleMessage] <;>
      rw [if_neg (by simpa using hmem)] <;>
      (repeat' split) <;>
      simp [tokenFamilyBranch]

theorem claim_C5_witness :
    ∃ s2 : Session,
      (handleMessage (some ⟨none, some "pid", "q", "r"⟩) ⟨"customModel", "k", none⟩
          initialCache 0 (.safari none) 0 none).session = some s2 ∧
      s2 = ⟨none, some "pid", "q", "r"⟩ := by
  obtain ⟨s2, h1, _, _, _, h5⟩ :=
    claim_C5_amended_frame ⟨none, some "pid", "q", "r"⟩ ⟨"customModel", "k", none⟩
      initialCache 0 (.safari none) 0 none
  exact ⟨s2, h1, h5 (by decide)⟩

/-- C6: the four backend-family key sets are pairwise disjoint (they
partition the valid keys), and a request whose configured model key belongs
to none of them produces no action: only the configuration read happens — no
backend call, no credential-cache interaction, no envelope — and cache,
session and identifier supply are untouched. -/
theorem claim_C6_partition_unknown_noop (config : UserConfig)
    (cache : ExpiryMap) (now : Nat) (env : Env) (seed : Nat) (s : Session)
    (bf : Option String)
    (h1 : config.modelName ∉ chatgptWebModelKeys)
    (h2 : config.modelName ∉ gptApiModelKeys)
    (h3 : config.modelName ∉ chatgptApiModelKeys)
    (h4 : config.modelName ∉ customApiModelKeys) :
    ((∀ k ∈ chatgptWebModelKeys, k ∉ gptApiModelKeys) ∧
     (∀ k ∈ chatgptWebModelKeys, k ∉ chatgptApiModelKeys) ∧
     (∀ k ∈ chatgptWebModelKeys, k ∉ customApiModelKeys) ∧
     (∀ k ∈ gptApiModelKeys, k ∉ chatgptApiModelKeys) ∧
     (∀ k ∈ gptApiModelKeys, k ∉ customApiModelKeys) ∧
     (∀ k ∈ chatgptApiModelKeys, k ∉ customApiModelKeys)) ∧
    handleMessage (some s) config cache now env seed bf =
      ⟨[Effect.readConfig], cache, some s, seed⟩ := by
  refine ⟨by decide, ?_⟩
  simp [handleMessage, h1, h2, h3, h4]

theorem claim_C6_witness :
    handleMessage (some ⟨none, none, "q", "r"⟩) ⟨"llamaCpp", "k", none⟩
        initialCache 0 (.safari none) 0 none =
      ⟨[Effect.readConfig], initialCache, some ⟨none, none, "q", "r"⟩, 0⟩ :=
  (claim_C6_partition_unknown_noop ⟨"llamaCpp", "k", none⟩ initialCache 0
      (.safari none) 0 ⟨none, none, "q", "r"⟩ none
      (by decide) (by decide) (by decide) (by decide)).2

/-- C7: for a request whose model key is in the Completion, ChatCompletion
or Custom family, the credential cache is never touched during dispatch
(`getAccessToken` is neither invoked nor does any credential fetch occur),
and the backend call — the second effect, right after the configuration
read — receives `config.apiKey` and `config.modelName` taken directly from
the resolved configuration. -/
theorem claim_C7_token_families_direct_config (s : Session) (config : UserConfig)
    (cache : ExpiryMap) (now : Nat) (env : Env) (seed : Nat) (bf : Option String)
    (hfam : config.modelName ∈ gptApiModelKeys ∨
            config.modelName ∈ chatgptApiModelKeys ∨
            config.modelName ∈ customApiModelKeys) :
    Effect.credentialGet ∉
      (handleMessage (some s) config cache now env seed bf).effects ∧
    Effect.credentialFetch ∉
      (handleMessage (some s) config cache now env seed bf).effects ∧
    (handleMessage (some s) config cache now env seed bf).effects[1]? =
      some (if config.modelName ∈ gptApiModelKeys then
              Effect.callGptCompletion s.question s config.apiKey config.modelName
            else if config.modelName ∈ chatgptApiModelKeys then
              Effect.callChatgptApi s.question s config.apiKey config.modelName
            else
              Effect.callCustomApi s.question s config.apiKey config.modelName) := by
  rcases hfam with h | h | h
  · have hname : config.modelName = "gptApiDavinci" := by
      simpa [gptApiModelKeys] using h
    cases bf with
    | none =>
      refine ⟨?_, ?_, ?_⟩ <;>
        simp [handleMessage, hname, tokenFamilyBranch, chatgptWebModelKeys,
          gptApiModelKeys, chatgptApiModelKeys, customApiModelKeys]
    | some m =>
      refine ⟨?_, ?_, ?_⟩ <;>
        simp [handleMessage, hname, tokenFamilyBranch, catchBlock,
          chatgptWebModelKeys, gptApiModelKeys, chatgptApiModelKeys,
          customApiModelKeys] <;>
        split <;> simp
  · have hname : config.modelName = "chatgptApi35" := by
      simpa [chatgptApiModelKeys] using h
    cases bf with
    | none =>
      refine ⟨?_, ?_, ?_⟩ <;>
        simp [handleMessage, hname, tokenFamilyBranch, chatgptWebModelKeys,
          gptApiModelKeys, chatgptApiModelKeys, customApiModelKeys]
    | some m =>
      refine ⟨?_, ?_, ?_⟩ <;>
        simp [handleMessage, hname, tokenFamilyBranch, catchBlock,
          chatgptWebModelKeys, gptApiModelKeys, chatgptApiModelKeys,
          customApiModelKeys] <;>
        split <;> simp
  · have hname : config.modelName = "customModel" := by
      simpa [customApiModelKeys] using h
    cases bf with
    | none =>
      refine ⟨?_, ?_, ?_⟩ <;>
        simp [handleMessage, hname, tokenFamilyBranch, chatgptWebModelKeys,
          gptApiModelKeys, chatgptApiModelKeys, customApiModelKeys]
    | some m =>
      refine ⟨?_, ?_, ?_⟩ <;>
        simp [handleMessage, hname, tokenFamilyBranch, catchBlock,
          chatgptWebModelKeys, gptApiModelKeys, chatgptApiModelKeys,
          customApiModelKeys] <;>
        split <;> simp

theorem claim_C7_witness :
    Effect.credentialGet ∉
      (handleMessage (some ⟨none, none, "q", "r"⟩) ⟨"chatgptApi35", "key", none⟩
          initialCache 0 (.safari none) 0 (some "rate limited")).effects ∧
    Effect.credentialFetch ∉
      (handleMessage (some ⟨none, none, "q", "r"⟩) ⟨"chatgptApi35", "key", none⟩
          initialCache 0 (.safari none) 0 (some "rate limited")).effects ∧
    (handleMessage (some ⟨none, none, "q", "r"⟩) ⟨"chatgptApi35", "key", none⟩
        initialCache 0 (.safari none) 0 (some "rate limited")).effects[1]? =
      some (if ("chatgptApi35" : String) ∈ gptApiModelKeys then
              Effect.callGptCompletion "q" ⟨none, none, "q", "r"⟩ "key" "chatgptApi35"
            else if ("chatgptApi35" : String) ∈ chatgptApiModelKeys then
              Effect.callChatgptApi "q" ⟨none, none, "q", "r"⟩ "key" "chatgptApi35"
            else
              Effect.callCustomApi "q" ⟨none, none, "q", "r"⟩ "key" "chatgptApi35") :=
  claim_C7_token_families_direct_config ⟨none, none, "q", "r"⟩
    ⟨"chatgptApi35", "key", none⟩ initialCache 0 (.safari none) 0
    (some "rate limited") (Or.inr (Or.inl (by decide)))

/-- C8 (code bug): the menu tree rebuild itself is idempotent — two
consecutive `refreshMenu` invocations leave the same item tree as one — but
each invocation registers an additional `onClicked` listener, so after two
invocations a single menu click emits the `(itemId, selectionText)` message
twice to the originating tab instead of exactly once. -/
theorem claim_C8_duplicate_click_listener :
    (refreshMenu (refreshMenu ⟨[], 0⟩)).items = (refreshMenu ⟨[], 0⟩).items ∧
    clickMessages (refreshMenu ⟨[], 0⟩) (menuId ++ "translate") "hello" =
      [("translate", "hello")] ∧
    clickMessages (refreshMenu (refreshMenu ⟨[], 0⟩)) (menuId ++ "translate")
        "hello" =
      [("translate", "hello"), ("translate", "hello")] :=
  ⟨rfl, by decide, by decide⟩
